import Mathlib

/-!
Verification of the gateway-worker certificate lifecycle manager and job
queue, shallowly embedded from the Go source (packages certificate and
queue). Go `time.Duration` and `time.Time` values are modelled as `Int`
nanoseconds; Go `error` values as strings; the manager's collaborator
interfaces (ACMEClient, Storage, Validator, Distributor) as structures of
response functions, with the calls the manager makes recorded in an
explicit effect trace.
-/

namespace GatewayWorker

/-- One hour in nanoseconds, as in Go `time.Hour`. -/
def hourNs : Int := 3600 * 1000000000

/-- One day in nanoseconds (`24 * time.Hour`). -/
def dayNs : Int := 24 * hourNs

/-- Go `error` values, modelled as their message strings. -/
abbrev GoError := String

/-- `CertificateType` from package certificate. -/
inductive CertificateType where
  | production
  | staging
  | temporary
  deriving DecidableEq

/-- `Certificate` struct from package certificate. Timestamps are `Int`
nanoseconds since the epoch. -/
structure Certificate where
  Domain : String
  CertData : List UInt8
  PrivateKey : List UInt8
  Expiry : Int
  CertType : CertificateType
  Created : Int
  LastUpdated : Int
  deriving DecidableEq

/-- `TemporaryCertificate` struct: an embedded `Certificate` plus reason,
validity window and temporary marker. -/
structure TemporaryCertificate where
  Cert : Certificate
  Reason : String
  ValidityDays : Int
  IsTemporary : Bool
  deriving DecidableEq

/-- `CertificateStatus` struct: the derived, never-persisted projection
returned by `GetCertificateStatus`. -/
structure CertificateStatus where
  Domain : String
  CertType : CertificateType
  Expiry : Int
  TimeUntilExpiry : Int
  Status : String
  deriving DecidableEq

/-- An observable call the manager makes on one of its collaborator
interfaces (Storage, ACMEClient, Validator, Distributor) or on the job
queue. The certificate package never touches the queue, but the
constructor `addJobCall` is present so that its absence from every trace
is expressible. -/
inductive Effect where
  | listCall : Effect
  | renewCall (domain : String) : Effect
  | validateCall (cert : Certificate) : Effect
  | storeCall (cert : Certificate) : Effect
  | deployCall (cert : Certificate) (instances : List String) : Effect
  | deployTemporaryCall (tc : TemporaryCertificate) : Effect
  | addJobCall (jobId : String) : Effect
  deriving DecidableEq

/-- The certificate `Manager`, with each collaborator interface method
replaced by its response function for the run under consideration:
`RenewCertificate` is `acmeClient.RenewCertificate`, `ValidateCertificate`
is `validator.ValidateCertificate`, `Store`/`Retrieve`/`ListStored` are
`storage.Store`/`Retrieve`/`List`, `CheckExpiration` is
`validator.CheckExpiration`, and `Deploy`/`DeployTemporary` are the
distributor's methods. -/
structure Manager where
  RenewCertificate : String → Except GoError Certificate
  ValidateCertificate : Certificate → Except GoError Unit
  Store : Certificate → Except GoError Unit
  Retrieve : String → Except GoError Certificate
  ListStored : Except GoError (List Certificate)
  CheckExpiration : Certificate → Except GoError Int
  Deploy : Certificate → List String → Except GoError Unit
  DeployTemporary : TemporaryCertificate → Except GoError Unit

/-- `Manager.determineStatus`: classification of a time-until-expiry
duration (the Go method ignores its receiver, so it is embedded as a plain
function of the duration). -/
def determineStatus (timeUntilExpiry : Int) : String :=
  if timeUntilExpiry ≤ 0 then "expired"
  else if timeUntilExpiry ≤ 7 * 24 * hourNs then "expiring"
  else if timeUntilExpiry ≤ 30 * 24 * hourNs then "renewal_due"
  else "valid"

/-- `Manager.GetCertificateStatus`: retrieve the stored certificate, ask
the validator for its remaining time, and project the status. -/
def Manager.GetCertificateStatus (m : Manager) (domain : String) :
    Except GoError CertificateStatus :=
  match m.Retrieve domain with
  | .error e => .error e
  | .ok cert =>
    match m.CheckExpiration cert with
    | .error e => .error e
    | .ok timeUntilExpiry =>
      .ok { Domain := domain, CertType := cert.CertType, Expiry := cert.Expiry,
            TimeUntilExpiry := timeUntilExpiry,
            Status := determineStatus timeUntilExpiry }

/-- `Manager.renewCertificate`: renew via ACME, validate the result, store
it, then deploy it to the (placeholder empty) instance list. Returns the
Go `error` result together with the trace of collaborator calls made. -/
def Manager.renewCertificate (m : Manager) (domain : String) :
    Except GoError Unit × List Effect :=
  match m.RenewCertificate domain with
  | .error e => (.error e, [.renewCall domain])
  | .ok newCert =>
    match m.ValidateCertificate newCert with
    | .error e => (.error e, [.renewCall domain, .validateCall newCert])
    | .ok _ =>
      match m.Store newCert with
      | .error e =>
        (.error e, [.renewCall domain, .validateCall newCert, .storeCall newCert])
      | .ok _ =>
        (m.Deploy newCert [],
         [.renewCall domain, .validateCall newCert, .storeCall newCert,
          .deployCall newCert []])

/-- The temporary certificate literal built inside
`Manager.deployTemporaryCertificate`: type temporary, created now, expiry
14 days from now, 14-day validity window, tagged with the reason. -/
def mkTemporaryCertificate (now : Int) (domain reason : String) :
    TemporaryCertificate :=
  { Cert := { Domain := domain, CertData := [], PrivateKey := [],
              Expiry := now + 14 * dayNs, CertType := .temporary,
              Created := now, LastUpdated := now },
    Reason := reason,
    ValidityDays := 14,
    IsTemporary := true }

/-- `Manager.generateSelfSignedCertificate`: the source body is a stub
that always returns nil. -/
def Manager.generateSelfSignedCertificate (_m : Manager)
    (_tc : TemporaryCertificate) : Except GoError Unit := .ok ()

/-- `Manager.deployTemporaryCertificate`: build the 14-day temporary
certificate, generate the self-signed material, and hand it to
`DeployTemporary`. -/
def Manager.deployTemporaryCertificate (m : Manager) (now : Int)
    (domain reason : String) : Except GoError Unit × List Effect :=
  let tempCert := mkTemporaryCertificate now domain reason
  match m.generateSelfSignedCertificate tempCert with
  | .error e => (.error e, [])
  | .ok _ => (m.DeployTemporary tempCert, [.deployTemporaryCall tempCert])

/-- Body of the sweep loop in `Manager.checkAndRenewCertificates` for one
stored certificate: if it expires within 30 days, renew it inline; on any
renewal error, fall back to the temporary certificate (whose own error is
only logged). -/
def Manager.sweepCertificate (m : Manager) (now : Int) (cert : Certificate) :
    List Effect :=
  if cert.Expiry - now ≤ 30 * 24 * hourNs then
    let r := m.renewCertificate cert.Domain
    match r.1 with
    | .ok _ => r.2
    | .error _ =>
      let t := m.deployTemporaryCertificate now cert.Domain "renewal_failed"
      r.2 ++ t.2
  else []

/-- `Manager.checkAndRenewCertificates`: list the stored certificates
(returning that error if listing fails) and sweep each in order. -/
def Manager.checkAndRenewCertificates (m : Manager) (now : Int) :
    Except GoError Unit × List Effect :=
  match m.ListStored with
  | .error e => (.error e, [.listCall])
  | .ok certificates =>
    (.ok (), .listCall :: (certificates.map (m.sweepCertificate now)).flatten)

/-- One event observed by the monitoring loop: either the context is
cancelled (carrying `ctx.Err()`) or the 24-hour ticker fires at some
instant. -/
inductive MonitorEvent where
  | ctxDone (e : GoError)
  | tick (now : Int)
  deriving DecidableEq

/-- `Manager.MonitorCertificates` over a finite schedule of events: on
cancellation it returns the context error; on a tick it runs the sweep
and continues monitoring whether or not the sweep returned an error.
`none` means the loop is still running after the given events. -/
def Manager.MonitorCertificates (m : Manager) :
    List MonitorEvent → Option GoError × List Effect
  | [] => (none, [])
  | .ctxDone e :: _ => (some e, [])
  | .tick now :: rest =>
    let sweep := m.checkAndRenewCertificates now
    let r := m.MonitorCertificates rest
    (r.1, sweep.2 ++ r.2)

/-- Semantics of the certificate store under an effect: only
`Storage.Store` mutates it, replacing the certificate keyed by its
domain. -/
def applyStoreEffect (store : String → Option Certificate) :
    Effect → (String → Option Certificate)
  | .storeCall cert => fun d => if d = cert.Domain then some cert else store d
  | _ => store

/-- The certificate store after a trace of effects. -/
def applyStoreEffects (store : String → Option Certificate)
    (effects : List Effect) : String → Option Certificate :=
  effects.foldl applyStoreEffect store

namespace Queue

/-- `JobType` from package queue: a string type. -/
abbrev JobType := String

/-- Job type constant `certificate_renewal`. -/
def JobTypeCertificateRenewal : JobType := "certificate_renewal"

/-- Job type constant `certificate_validation`. -/
def JobTypeCertificateValidation : JobType := "certificate_validation"

/-- Job type constant `config_update`. -/
def JobTypeConfigUpdate : JobType := "config_update"

/-- Job type constant `log_processing`. -/
def JobTypeLogProcessing : JobType := "log_processing"

/-- Job type constant `analytics`. -/
def JobTypeAnalytics : JobType := "analytics"

/-- Job type constant `database_cleanup`. -/
def JobTypeDatabaseCleanup : JobType := "database_cleanup"

/-- Job type constant `integration`. -/
def JobTypeIntegration : JobType := "integration"

/-- `Job` struct from package queue. The opaque string-keyed payload map
is modelled as a key/value list, `Created` as `Int` nanoseconds, and the
Go field `Type` (a Lean keyword) as `JType`. -/
structure Job where
  ID : String
  JType : JobType
  Payload : List (String × String)
  Priority : Int
  Retry : Int
  MaxRetry : Int
  Created : Int
  deriving DecidableEq

/-- The error values of package queue: `ErrQueueFull`, declared as
`errors.New` of the message `job queue is full`. -/
inductive QueueError where
  | queueFull
  deriving DecidableEq

/-- The queue `Service`: the buffered jobs channel is the FIFO list of
pending jobs (head = oldest = next to be received), together with the
channel capacity and the worker count. -/
structure Service where
  jobs : List Job
  capacity : Nat
  workers : Nat
  deriving DecidableEq

/-- `queue.New`: empty buffered channel of capacity 1000, 5 workers. -/
def New : Service :=
  { jobs := [], capacity := 1000, workers := 5 }

/-- `Service.AddJob`: the `select` with a `default` branch on the
buffered channel — if the buffer has room the job is appended and nil is
returned, otherwise `ErrQueueFull` is returned at once and the channel is
untouched. -/
def Service.AddJob (s : Service) (job : Job) :
    Except QueueError Unit × Service :=
  if s.jobs.length < s.capacity then
    (.ok (), { s with jobs := s.jobs ++ [job] })
  else
    (.error .queueFull, s)

/-- The receive `job := <-s.jobs` in `Service.worker`: a buffered Go
channel delivers in FIFO order, so the head of the buffer is taken. -/
def Service.dequeue (s : Service) : Option (Job × Service) :=
  match s.jobs with
  | [] => none
  | job :: rest => some (job, { s with jobs := rest })

/-- Everything `Service.processJob` does that is visible outside the
worker: dispatch to a (stub) handler of the job's type, or log and drop
an unknown type. `resubmitted` is the effect an `AddJob` call from within
job processing would produce; the source contains no such call, so no
branch emits it. -/
inductive WorkerEffect where
  | handled (jobType : JobType) (jobId : String)
  | unknownDropped (jobType : JobType)
  | resubmitted (job : Job)
  deriving DecidableEq

/-- `Service.processJob`: the `switch job.Type` dispatch. Every known
type goes to its placeholder handler (which only logs); an unknown type
is logged and dropped. Nothing is retried or re-enqueued and the job
value is not modified. -/
def Service.processJob (_s : Service) (job : Job) : List WorkerEffect :=
  if job.JType = JobTypeCertificateRenewal then [.handled job.JType job.ID]
  else if job.JType = JobTypeCertificateValidation then [.handled job.JType job.ID]
  else if job.JType = JobTypeConfigUpdate then [.handled job.JType job.ID]
  else if job.JType = JobTypeLogProcessing then [.handled job.JType job.ID]
  else if job.JType = JobTypeAnalytics then [.handled job.JType job.ID]
  else if job.JType = JobTypeDatabaseCleanup then [.handled job.JType job.ID]
  else if job.JType = JobTypeIntegration then [.handled job.JType job.ID]
  else [.unknownDropped job.JType]

/-- One iteration of the `Service.worker` loop when a job is available:
receive from the channel, process it. Returns `none` when the channel is
empty (the worker would block). -/
def Service.workerStep (s : Service) : Option (Service × List WorkerEffect) :=
  match s.dequeue with
  | none => none
  | some (job, s2) => some (s2, s2.processJob job)

end Queue

/-! ## Concrete instances used in witnesses and counterexamples -/

/-- Concrete manager used to witness C1: the store holds a certificate
for `example.com` and the validator reports 3 days until expiry. -/
def mgrClaim1 : Manager :=
  { RenewCertificate := fun _ => .error "unused",
    ValidateCertificate := fun _ => .error "unused",
    Store := fun _ => .error "unused",
    Retrieve := fun d =>
      .ok { Domain := d, CertData := [], PrivateKey := [],
            Expiry := 100 + 3 * dayNs, CertType := .production,
            Created := 0, LastUpdated := 0 },
    ListStored := .error "unused",
    CheckExpiration := fun _ => .ok (3 * dayNs),
    Deploy := fun _ _ => .error "unused",
    DeployTemporary := fun _ => .error "unused" }

/-- The status `mgrClaim1` reports for `example.com`. -/
def stClaim1 : CertificateStatus :=
  { Domain := "example.com", CertType := .production,
    Expiry := 100 + 3 * dayNs, TimeUntilExpiry := 3 * dayNs,
    Status := "expiring" }

/-- A stored certificate for `x.example.com` that is 5 days from expiry
at instant 0, so a sweep at instant 0 must renew it. -/
def certDue : Certificate :=
  { Domain := "x.example.com", CertData := [], PrivateKey := [],
    Expiry := 5 * dayNs, CertType := .production,
    Created := 0, LastUpdated := 0 }

/-- Manager whose store lists only `certDue` and whose renewal authority
always fails: used to witness C2. -/
def mgrClaim2 : Manager :=
  { RenewCertificate := fun _ => .error "acme unreachable",
    ValidateCertificate := fun _ => .ok (),
    Store := fun _ => .ok (),
    Retrieve := fun _ => .error "unused",
    ListStored := .ok [certDue],
    CheckExpiration := fun _ => .error "unused",
    Deploy := fun _ _ => .ok (),
    DeployTemporary := fun _ => .ok () }

/-- Manager whose renewal authority always fails: used to witness the
failure cases of C3. -/
def mgrClaim3fail : Manager :=
  { RenewCertificate := fun _ => .error "acme unreachable",
    ValidateCertificate := fun _ => .ok (),
    Store := fun _ => .ok (),
    Retrieve := fun _ => .error "unused",
    ListStored := .ok [],
    CheckExpiration := fun _ => .error "unused",
    Deploy := fun _ _ => .ok (),
    DeployTemporary := fun _ => .ok () }

/-- The certificate a successful renewal of `x.example.com` returns in
the C3 witness. -/
def certRenewed : Certificate :=
  { Domain := "x.example.com", CertData := [1], PrivateKey := [2],
    Expiry := 90 * dayNs, CertType := .production,
    Created := 0, LastUpdated := 0 }

/-- Manager for which the whole renewal chain succeeds, returning
`certRenewed`: used to witness the success case of C3 and for C6. -/
def mgrRenewOk : Manager :=
  { RenewCertificate := fun _ => .ok certRenewed,
    ValidateCertificate := fun _ => .ok (),
    Store := fun _ => .ok (),
    Retrieve := fun _ => .error "unused",
    ListStored := .ok [certDue],
    CheckExpiration := fun _ => .error "unused",
    Deploy := fun _ _ => .ok (),
    DeployTemporary := fun _ => .ok () }

/-- A concrete certificate store holding nothing. -/
def emptyStore : String → Option Certificate := fun _ => none

/-- Manager whose storage cannot even be listed: used to witness C8. -/
def mgrListFail : Manager :=
  { RenewCertificate := fun _ => .error "unused",
    ValidateCertificate := fun _ => .error "unused",
    Store := fun _ => .error "unused",
    Retrieve := fun _ => .error "unused",
    ListStored := .error "db down",
    CheckExpiration := fun _ => .error "unused",
    Deploy := fun _ _ => .error "unused",
    DeployTemporary := fun _ => .error "unused" }

/-- Maintenance job submitted first with the default priority 1000. -/
def jobLowUrgency : Queue.Job :=
  { ID := "job-a", JType := Queue.JobTypeLogProcessing, Payload := [],
    Priority := 1000, Retry := 0, MaxRetry := 3, Created := 0 }

/-- Certificate-renewal job submitted second with the urgent priority 1. -/
def jobHighUrgency : Queue.Job :=
  { ID := "job-b", JType := Queue.JobTypeCertificateRenewal, Payload := [],
    Priority := 1, Retry := 0, MaxRetry := 3, Created := 1 }

/-- The queue after submitting `jobLowUrgency` and then `jobHighUrgency`
to a fresh service. -/
def svcTwoJobs : Queue.Service :=
  ((Queue.New.AddJob jobLowUrgency).2.AddJob jobHighUrgency).2

/-- A service whose 2-slot buffer is already full: used to witness C5. -/
def svcFull : Queue.Service :=
  { jobs := [jobLowUrgency, jobHighUrgency], capacity := 2, workers := 5 }

/-- A fresh certificate-renewal job with retries left: used for C7. -/
def jobRenewal : Queue.Job :=
  { ID := "job-1", JType := Queue.JobTypeCertificateRenewal, Payload := [],
    Priority := 1, Retry := 0, MaxRetry := 3, Created := 0 }

/-! ## Theorems -/

/-- C1: the certificate status classification is a pure function of the
time-until-expiry duration `d` with exactly these thresholds: `d ≤ 0`
yields `expired`; `0 < d ≤ 7` days yields `expiring`; `7 < d ≤ 30` days
yields `renewal_due`; `d > 30` days yields `valid` — and every status
`GetCertificateStatus` returns carries exactly this classification of its
own time-until-expiry field. -/
theorem claim1_status_classification :
    (∀ d : Int,
      ((determineStatus d = "expired") ↔ d ≤ 0) ∧
      ((determineStatus d = "expiring") ↔ (0 < d ∧ d ≤ 7 * dayNs)) ∧
      ((determineStatus d = "renewal_due") ↔ (7 * dayNs < d ∧ d ≤ 30 * dayNs)) ∧
      ((determineStatus d = "valid") ↔ 30 * dayNs < d)) ∧
    (∀ (m : Manager) (domain : String) (st : CertificateStatus),
      m.GetCertificateStatus domain = .ok st →
      st.Status = determineStatus st.TimeUntilExpiry) := by
  constructor
  · intro d
    unfold determineStatus
    simp only [dayNs, hourNs]
    split_ifs with h1 h2 h3 <;> refine ⟨?_, ?_, ?_, ?_⟩ <;> simp <;> omega
  · intro m domain st h
    unfold Manager.GetCertificateStatus at h
    split at h
    · exact absurd h (by simp)
    split at h
    · exact absurd h (by simp)
    simp only [Except.ok.injEq] at h
    subst h
    rfl

/-- Witness for C1 at a concrete manager and domain: the returned status
is the pure classification of the returned time-until-expiry, which at 3
days is `expiring`. -/
theorem claim1_status_classification_witness :
    mgrClaim1.GetCertificateStatus "example.com" = .ok stClaim1 ∧
    stClaim1.Status = determineStatus stClaim1.TimeUntilExpiry ∧
    determineStatus (3 * dayNs) = "expiring" := by
  refine ⟨by rfl,
    claim1_status_classification.2 mgrClaim1 "example.com" stClaim1 (by rfl),
    by decide⟩

/-- Whatever the collaborators answer, the renewal trace opens with the
inline call to the renewal authority. -/
theorem renewCall_mem_renew_trace (m : Manager) (domain : String) :
    Effect.renewCall domain ∈ (m.renewCertificate domain).2 := by
  cases hr : m.RenewCertificate domain with
  | error e => simp [Manager.renewCertificate, hr]
  | ok cert =>
    cases hv : m.ValidateCertificate cert with
    | error e => simp [Manager.renewCertificate, hr, hv]
    | ok u =>
      cases hs : m.Store cert with
      | error e => simp [Manager.renewCertificate, hr, hv, hs]
      | ok u2 => simp [Manager.renewCertificate, hr, hv, hs]

/-- C3: for every domain, `renewCertificate` performs renew, then
validate, then store, then deploy, in that order; `Store` is called only
on a certificate the authority returned and the validator accepted; and
on an authority or validation error the certificate store is left
unchanged. -/
theorem claim3_renew_order_store_after_validate :
    ∀ (m : Manager) (domain : String),
      (∀ e, m.RenewCertificate domain = .error e →
        m.renewCertificate domain = (.error e, [.renewCall domain])) ∧
      (∀ cert e, m.RenewCertificate domain = .ok cert →
        m.ValidateCertificate cert = .error e →
        m.renewCertificate domain =
          (.error e, [.renewCall domain, .validateCall cert])) ∧
      (∀ cert e, m.RenewCertificate domain = .ok cert →
        m.ValidateCertificate cert = .ok () →
        m.Store cert = .error e →
        m.renewCertificate domain =
          (.error e,
           [.renewCall domain, .validateCall cert, .storeCall cert])) ∧
      (∀ cert, m.RenewCertificate domain = .ok cert →
        m.ValidateCertificate cert = .ok () →
        m.Store cert = .ok () →
        m.renewCertificate domain =
          (m.Deploy cert [],
           [.renewCall domain, .validateCall cert, .storeCall cert,
            .deployCall cert []])) ∧
      (∀ c, Effect.storeCall c ∈ (m.renewCertificate domain).2 →
        m.RenewCertificate domain = .ok c ∧
        m.ValidateCertificate c = .ok ()) ∧
      (∀ (store : String → Option Certificate),
        ((∃ e, m.RenewCertificate domain = .error e) ∨
         (∃ cert e, m.RenewCertificate domain = .ok cert ∧
            m.ValidateCertificate cert = .error e)) →
        applyStoreEffects store (m.renewCertificate domain).2 = store) := by
  intro m domain
  refine ⟨?_, ?_, ?_, ?_, ?_, ?_⟩
  · intro e he
    simp [Manager.renewCertificate, he]
  · intro cert e hr hv
    simp [Manager.renewCertificate, hr, hv]
  · intro cert e hr hv hs
    simp [Manager.renewCertificate, hr, hv, hs]
  · intro cert hr hv hs
    simp [Manager.renewCertificate, hr, hv, hs]
  · intro c hc
    cases hr : m.RenewCertificate domain with
    | error e =>
      simp [Manager.renewCertificate, hr] at hc
    | ok cert =>
      cases hv : m.ValidateCertificate cert with
      | error e =>
        simp [Manager.renewCertificate, hr, hv] at hc
      | ok u =>
        cases u
        cases hs : m.Store cert with
        | error e =>
          simp [Manager.renewCertificate, hr, hv, hs] at hc
          subst hc
          exact ⟨rfl, hv⟩
        | ok u2 =>
          simp [Manager.renewCertificate, hr, hv, hs] at hc
          subst hc
          exact ⟨rfl, hv⟩
  · intro store h
    rcases h with ⟨e, he⟩ | ⟨cert, e, hr, hv⟩
    · simp [Manager.renewCertificate, he, applyStoreEffects, applyStoreEffect]
    · simp [Manager.renewCertificate, hr, hv, applyStoreEffects, applyStoreEffect]

/-- Witness for C3 at concrete managers: on an authority error the result
is the error with only the renew call traced and the store is unchanged;
on full success the trace is exactly renew, validate, store, deploy. -/
theorem claim3_renew_order_witness :
    mgrClaim3fail.renewCertificate "x.example.com" =
      (.error "acme unreachable", [.renewCall "x.example.com"]) ∧
    applyStoreEffects emptyStore
        (mgrClaim3fail.renewCertificate "x.example.com").2 = emptyStore ∧
    mgrRenewOk.renewCertificate "x.example.com" =
      (.ok (),
       [.renewCall "x.example.com", .validateCall certRenewed,
        .storeCall certRenewed, .deployCall certRenewed []]) := by
  refine ⟨(claim3_renew_order_store_after_validate mgrClaim3fail
            "x.example.com").1 "acme unreachable" rfl,
    (claim3_renew_order_store_after_validate mgrClaim3fail
      "x.example.com").2.2.2.2.2 emptyStore
      (Or.inl ⟨"acme unreachable", rfl⟩),
    (claim3_renew_order_store_after_validate mgrRenewOk
      "x.example.com").2.2.2.1 certRenewed rfl rfl rfl⟩

/-- C2: whenever a stored certificate is due (expires within 30 days of
the sweep instant) and its renewal chain fails, the same sweep passes to
`DeployTemporary` a temporary certificate for that domain of type
temporary, with expiry = creation time + 14 days, ValidityDays 14, and
the non-empty failure reason `renewal_failed`. -/
theorem claim2_temporary_certificate_on_failure :
    ∀ (m : Manager) (now : Int) (certs : List Certificate)
      (cert : Certificate) (e : GoError),
      m.ListStored = .ok certs →
      cert ∈ certs →
      cert.Expiry - now ≤ 30 * 24 * hourNs →
      (m.renewCertificate cert.Domain).1 = .error e →
      Effect.deployTemporaryCall
          (mkTemporaryCertificate now cert.Domain "renewal_failed")
        ∈ (m.checkAndRenewCertificates now).2 ∧
      (mkTemporaryCertificate now cert.Domain "renewal_failed").Cert.CertType
        = .temporary ∧
      (mkTemporaryCertificate now cert.Domain "renewal_failed").Cert.Expiry
        = (mkTemporaryCertificate now cert.Domain "renewal_failed").Cert.Created
            + 14 * dayNs ∧
      (mkTemporaryCertificate now cert.Domain "renewal_failed").ValidityDays
        = 14 ∧
      (mkTemporaryCertificate now cert.Domain "renewal_failed").Reason ≠ "" := by
  intro m now certs cert e hlist hmem hdue hfail
  refine ⟨?_, rfl, rfl, rfl, by show ("renewal_failed" : String) ≠ ""; decide⟩
  have hsweep : Effect.deployTemporaryCall
      (mkTemporaryCertificate now cert.Domain "renewal_failed")
      ∈ m.sweepCertificate now cert := by
    unfold Manager.sweepCertificate
    rw [if_pos hdue]
    simp only
    rw [hfail]
    simp [Manager.deployTemporaryCertificate,
      Manager.generateSelfSignedCertificate]
  unfold Manager.checkAndRenewCertificates
  rw [hlist]
  simp only [List.mem_cons, List.mem_flatten]
  exact Or.inr ⟨m.sweepCertificate now cert,
    List.mem_map_of_mem _ hmem, hsweep⟩

/-- Witness for C2: with `certDue` five days from expiry and an authority
that always fails, the sweep at instant 0 deploys the 14-day temporary
certificate tagged `renewal_failed`. -/
theorem claim2_temporary_certificate_witness :
    Effect.deployTemporaryCall
        (mkTemporaryCertificate 0 "x.example.com" "renewal_failed")
      ∈ (mgrClaim2.checkAndRenewCertificates 0).2 ∧
    (mkTemporaryCertificate 0 "x.example.com" "renewal_failed").Cert.CertType
      = .temporary ∧
    (mkTemporaryCertificate 0 "x.example.com" "renewal_failed").ValidityDays
      = 14 := by
  have h := claim2_temporary_certificate_on_failure mgrClaim2 0 [certDue]
    certDue "acme unreachable" rfl (by simp) (by decide) rfl
  exact ⟨h.1, h.2.1, h.2.2.2.1⟩

/-- C8: a failure while handling one domain is contained at that domain —
the sweep returns an error exactly when listing the stored certificates
fails, every due certificate is still attempted regardless of other
failures, and the monitor loop keeps running after any sweep outcome,
returning only the context-cancellation error. -/
theorem claim8_failure_containment :
    ∀ (m : Manager) (now : Int),
      (∀ e, ((m.checkAndRenewCertificates now).1 = .error e ↔
        m.ListStored = .error e)) ∧
      (∀ certs cert, m.ListStored = .ok certs → cert ∈ certs →
        cert.Expiry - now ≤ 30 * 24 * hourNs →
        Effect.renewCall cert.Domain ∈ (m.checkAndRenewCertificates now).2) ∧
      (∀ evs, (m.MonitorCertificates (.tick now :: evs)).1 =
        (m.MonitorCertificates evs).1) ∧
      (∀ evs e, (m.MonitorCertificates evs).1 = some e →
        MonitorEvent.ctxDone e ∈ evs) := by
  intro m now
  refine ⟨?_, ?_, ?_, ?_⟩
  · intro e
    cases hl : m.ListStored with
    | error e2 => simp [Manager.checkAndRenewCertificates, hl]
    | ok certs => simp [Manager.checkAndRenewCertificates, hl]
  · intro certs cert hlist hmem hdue
    have hsweep : Effect.renewCall cert.Domain ∈ m.sweepCertificate now cert := by
      unfold Manager.sweepCertificate
      rw [if_pos hdue]
      simp only
      cases hres : (m.renewCertificate cert.Domain).1 with
      | error e =>
        exact List.mem_append_left _ (renewCall_mem_renew_trace m cert.Domain)
      | ok u => exact renewCall_mem_renew_trace m cert.Domain
    unfold Manager.checkAndRenewCertificates
    rw [hlist]
    simp only [List.mem_cons, List.mem_flatten]
    exact Or.inr ⟨m.sweepCertificate now cert,
      List.mem_map_of_mem _ hmem, hsweep⟩
  · intro evs
    rfl
  · intro evs
    induction evs with
    | nil => intro e h; simp [Manager.MonitorCertificates] at h
    | cons ev rest ih =>
      intro e h
      cases ev with
      | ctxDone e2 =>
        simp [Manager.MonitorCertificates] at h
        simp [h]
      | tick n =>
        have h2 : (m.MonitorCertificates rest).1 = some e := h
        exact List.mem_cons_of_mem _ (ih e h2)

/-- Witness for C8: a sweep whose storage listing fails returns that
error; `certDue` is still renewed inline on a successful manager; and a
monitor run over a tick followed by cancellation returns exactly the
cancellation error, which is among the events. -/
theorem claim8_failure_containment_witness :
    (mgrListFail.checkAndRenewCertificates 0).1 = .error "db down" ∧
    Effect.renewCall "x.example.com"
      ∈ (mgrRenewOk.checkAndRenewCertificates 0).2 ∧
    (mgrListFail.MonitorCertificates
      [.tick 0, .ctxDone "context canceled"]).1 = some "context canceled" ∧
    MonitorEvent.ctxDone "context canceled"
      ∈ [MonitorEvent.tick 0, MonitorEvent.ctxDone "context canceled"] := by
  refine ⟨((claim8_failure_containment mgrListFail 0).1 "db down").mpr rfl,
    (claim8_failure_containment mgrRenewOk 0).2.1 [certDue] certDue rfl
      (by simp) (by decide),
    rfl,
    (claim8_failure_containment mgrListFail 0).2.2.2
      [.tick 0, .ctxDone "context canceled"] "context canceled" rfl⟩

/-- C10: the temporary-certificate fallback path touches only the
distributor — its trace is exactly the `DeployTemporary` call, and the
certificate store (as a whole and at the affected domain) is exactly what
it was before the fallback ran. -/
theorem claim10_temporary_path_preserves_store :
    ∀ (m : Manager) (now : Int) (domain reason : String)
      (store : String → Option Certificate),
      (m.deployTemporaryCertificate now domain reason).2 =
        [Effect.deployTemporaryCall (mkTemporaryCertificate now domain reason)] ∧
      applyStoreEffects store
        (m.deployTemporaryCertificate now domain reason).2 = store ∧
      applyStoreEffects store
        (m.deployTemporaryCertificate now domain reason).2 domain
        = store domain := by
  intro m now domain reason store
  exact ⟨rfl, rfl, rfl⟩

/-- C5: `AddJob` never lets the buffer exceed its capacity — with free
room the job is appended and nil returned, on a full buffer it returns
`ErrQueueFull` at once with the queue untouched, the length bound is
preserved, and a fresh service has the default capacity 1000. -/
theorem claim5_addjob_bounded_queue :
    Queue.New.capacity = 1000 ∧
    ∀ (s : Queue.Service) (job : Queue.Job),
      (s.jobs.length < s.capacity →
        s.AddJob job = (.ok (), { s with jobs := s.jobs ++ [job] })) ∧
      (¬ s.jobs.length < s.capacity →
        s.AddJob job = (.error .queueFull, s)) ∧
      (s.jobs.length ≤ s.capacity →
        ((s.AddJob job).2.jobs.length ≤ s.capacity ∧
         (s.AddJob job).2.capacity = s.capacity)) := by
  refine ⟨rfl, fun s job => ⟨?_, ?_, ?_⟩⟩
  · intro h
    simp [Queue.Service.AddJob, h]
  · intro h
    simp [Queue.Service.AddJob, h]
  · intro h
    by_cases hroom : s.jobs.length < s.capacity
    · simp [Queue.Service.AddJob, hroom]
      omega
    · simp [Queue.Service.AddJob, hroom]
      exact h

/-- Witness for C5: adding to a fresh queue succeeds, adding to the full
2-slot `svcFull` returns `ErrQueueFull` with the service unchanged and
its length still at capacity. -/
theorem claim5_addjob_bounded_queue_witness :
    Queue.New.AddJob jobRenewal =
      (.ok (), { jobs := [jobRenewal], capacity := 1000, workers := 5 }) ∧
    svcFull.AddJob jobRenewal = (.error .queueFull, svcFull) ∧
    (svcFull.AddJob jobRenewal).2.jobs.length ≤ svcFull.capacity := by
  refine ⟨(claim5_addjob_bounded_queue.2 Queue.New jobRenewal).1 (by decide),
    (claim5_addjob_bounded_queue.2 svcFull jobRenewal).2.1 (by decide),
    ((claim5_addjob_bounded_queue.2 svcFull jobRenewal).2.2 (by decide)).1⟩

/-- C4 fails on the code: the channel-backed queue is pure FIFO. With the
priority-1000 job submitted before the priority-1 job, the worker's
receive returns the priority-1000 job first, not the job with the lowest
priority value. -/
theorem claim4_fifo_dequeue_ignores_priority :
    svcTwoJobs.jobs = [jobLowUrgency, jobHighUrgency] ∧
    svcTwoJobs.dequeue =
      some (jobLowUrgency,
        { jobs := [jobHighUrgency], capacity := 1000, workers := 5 }) ∧
    jobHighUrgency.Priority < jobLowUrgency.Priority := by
  exact ⟨rfl, rfl, by decide⟩

/-- C6 fails on the code: a sweep over the store holding the due
`certDue` calls the renewal authority, the validator, the store and the
distributor inline — its trace is exactly these calls and contains no job
dispatch. -/
theorem claim6_sweep_calls_authority_inline :
    (mgrRenewOk.checkAndRenewCertificates 0).2 =
      [Effect.listCall, Effect.renewCall "x.example.com",
       Effect.validateCall certRenewed, Effect.storeCall certRenewed,
       Effect.deployCall certRenewed []] := by
  rfl

/-- C7 fails on the code: processing a certificate-renewal job with
retries remaining just runs the void stub handler — the job drains from
the queue with no re-submission and its retry counter untouched. -/
theorem claim7_no_retry_machinery :
    (Queue.New.AddJob jobRenewal).2.workerStep =
      some ({ jobs := [], capacity := 1000, workers := 5 },
        [Queue.WorkerEffect.handled Queue.JobTypeCertificateRenewal "job-1"]) ∧
    Queue.New.processJob jobRenewal =
      [Queue.WorkerEffect.handled Queue.JobTypeCertificateRenewal "job-1"] ∧
    jobRenewal.Retry = 0 ∧ jobRenewal.MaxRetry = 3 := by
  exact ⟨rfl, rfl, rfl, rfl⟩

end GatewayWorker
